import Mathlib

/-!
Verification of the `BidirectionalInfiniteScroll` component (src/src/utils.ts).

The component keeps a two-element array `visiblePages = [low, high]` of page
indices, an exclusive `isLoading` flag, and an optional `scrollToPage` anchor.
`loadNextPage` / `loadPrevPage` are the advance / retreat transitions;
`paginatedChunks` maps each visible page index to its slice of the dataset.
We embed the state and the transition functions below; page indices are `Int`
(JS numbers used only integrally by the code), the dataset is a `List`.
-/

namespace BidiScroll

/-- The visible window: the two-element `visiblePages` array of the source,
`prev[0] = low`, `prev[1] = prev[prev.length - 1] = high`. -/
structure Window where
  low : Int
  high : Int
  deriving Repr, DecidableEq

/-- The component state the claims are about: `visiblePages`, `isLoading`
and `scrollToPage` (`null` is `none`).  The two overlay booleans are purely
presentational and not modelled. -/
structure ScrollState where
  visiblePages : Window
  isLoading : Bool
  scrollToPage : Option Int
  deriving Repr, DecidableEq

/-- Initial state of the component, for any props:
`useState<number[]>([0, 1])`, `useState(false)`, `useState<number | null>(null)`
(utils.ts lines 195-197).  The initial window does not depend on the data or
the page size. -/
def initState {α : Type} (data : List α) (pageSize : Nat) : ScrollState :=
  { visiblePages := ⟨0, 1⟩, isLoading := false, scrollToPage := none }

/-- `totalPages = Math.ceil(data.length / pageSize)` (utils.ts line 201),
for `pageSize > 0`.  For `pageSize = 0` the JS expression evaluates to
`Infinity` (or `NaN` on an empty dataset), which has no `Nat` counterpart;
the claims touching `pageSize ≤ 0` are settled through `paginatedChunks`,
which is faithful there. -/
def totalPages (dataLength pageSize : Nat) : Nat :=
  (dataLength + pageSize - 1) / pageSize

/-- `canLoadNext = visiblePages[visiblePages.length - 1] < totalPages - 1`
(utils.ts line 202), i.e. `high < totalPages - 1` over JS integers. -/
def canLoadNext (tp : Nat) (w : Window) : Bool :=
  decide (w.high < (tp : Int) - 1)

/-- `canLoadPrev = visiblePages[0] > 0` (utils.ts line 203). -/
def canLoadPrev (w : Window) : Bool :=
  decide (0 < w.low)

/-- The functional updater passed to `setVisiblePages` by `loadNextPage`
(utils.ts lines 252-256): `nextPage = prev[prev.length - 1] + 1`; if
`nextPage >= totalPages` return `prev` unchanged, else `[prev[1], nextPage]`. -/
def nextPageUpdate (tp : Nat) (w : Window) : Window :=
  let nextPage := w.high + 1
  if nextPage ≥ (tp : Int) then w else ⟨w.high, nextPage⟩

/-- The functional updater passed to `setVisiblePages` by `loadPrevPage`
(utils.ts lines 268-273): `prevPage = prev[0] - 1`; if `prevPage < 0` return
`prev` unchanged (and do not touch `scrollToPage`), else set
`scrollToPage := prevPage + 1` and return `[prevPage, prev[0]]`.  The second
component is the resulting `scrollToPage` value. -/
def prevPageUpdate (w : Window) (anchor : Option Int) : Window × Option Int :=
  let prevPage := w.low - 1
  if prevPage < 0 then (w, anchor)
  else (⟨prevPage, w.low⟩, some (prevPage + 1))

/-- The tail of `loadNextPage` after the awaited delay: apply the window
updater, then `setIsLoading(false)` (utils.ts lines 252-258). -/
def finishNextLoad (tp : Nat) (s : ScrollState) : ScrollState :=
  { s with visiblePages := nextPageUpdate tp s.visiblePages, isLoading := false }

/-- The tail of `loadPrevPage` after the awaited delay: apply the window
updater (which may write `scrollToPage`), then `setIsLoading(false)`
(utils.ts lines 268-275). -/
def finishPrevLoad (s : ScrollState) : ScrollState :=
  let r := prevPageUpdate s.visiblePages s.scrollToPage
  { visiblePages := r.1, isLoading := false, scrollToPage := r.2 }

/-- A whole completed run of `loadNextPage` (utils.ts lines 245-259): the
`if (isLoading) return` guard drops the call; otherwise `setIsLoading(true)`,
await the delay, update the window, `setIsLoading(false)`. -/
def loadNextPage (tp : Nat) (s : ScrollState) : ScrollState :=
  if s.isLoading then s else finishNextLoad tp { s with isLoading := true }

/-- A whole completed run of `loadPrevPage` (utils.ts lines 261-276),
guarded and phased exactly like `loadNextPage`. -/
def loadPrevPage (s : ScrollState) : ScrollState :=
  if s.isLoading then s else finishPrevLoad { s with isLoading := true }

/-- A completed transition trigger: advance or retreat. -/
inductive Op where
  | next : Op
  | prev : Op
  deriving Repr, DecidableEq

/-- Apply one completed transition to the state. -/
def applyOp (tp : Nat) (s : ScrollState) : Op → ScrollState
  | Op.next => loadNextPage tp s
  | Op.prev => loadPrevPage s

/-- Run a sequence of completed transitions from a state. -/
def runOps (tp : Nat) (s : ScrollState) : List Op → ScrollState
  | [] => s
  | o :: os => runOps tp (applyOp tp s o) os

/-- JS `Array.prototype.slice` index resolution: a negative index counts from
the end (clamped at 0), a non-negative one is clamped to the length. -/
def jsSliceBound (len : Nat) (i : Int) : Nat :=
  if i < 0 then ((len : Int) + i).toNat else min i.toNat len

/-- JS `xs.slice(start, stop)`: the elements with indices in
`[resolve start, resolve stop)`. -/
def jsSlice {α : Type} (xs : List α) (start stop : Int) : List α :=
  (xs.take (jsSliceBound xs.length stop)).drop (jsSliceBound xs.length start)

/-- `paginatedChunks` (utils.ts lines 278-287): map every visible page index
to `{ page, items: data.slice(page * pageSize, page * pageSize + pageSize) }`. -/
def paginatedChunks {α : Type} (data : List α) (pageSize : Nat) (w : Window) :
    List (Int × List α) :=
  [w.low, w.high].map fun page =>
    (page, jsSlice data (page * (pageSize : Int)) (page * (pageSize : Int) + (pageSize : Int)))

/-- Measurements of a mounted page element: `el.offsetTop` and
`el.clientHeight`. -/
structure Measured where
  offsetTop : Int
  clientHeight : Int
  deriving Repr, DecidableEq

/-- `shouldScrollTo = page === scrollToPage` (utils.ts line 306): whether the
anchor ref callback is attached to this page's content. -/
def shouldScrollTo (s : ScrollState) (page : Int) : Bool :=
  s.scrollToPage == some page

/-- The ref callback body (utils.ts lines 308-313), fired once the anchored
element is mounted: sets
`scrollTop = el.offsetTop - wrapper.offsetTop + el.clientHeight` and clears
`scrollToPage`.  Returns the new scroll offset together with the new state. -/
def applyScrollCorrection (wrapperOffsetTop : Int) (el : Measured) (s : ScrollState) :
    Int × ScrollState :=
  (el.offsetTop - wrapperOffsetTop + el.clientHeight, { s with scrollToPage := none })

/-- Claim C1: for every window `(low, high)`, if `canAdvance`
(`high < totalPages - 1`) is false, advance returns the window unchanged
(a no-op, not an error); otherwise advance returns `(high, high + 1)`,
discarding exactly the old low index and introducing exactly `high + 1`. -/
theorem advance_characterization (tp : Nat) (w : Window) :
    nextPageUpdate tp w = if canLoadNext tp w then Window.mk w.high (w.high + 1) else w := by
  simp only [nextPageUpdate, canLoadNext]
  by_cases h : w.high + 1 ≥ (tp : Int)
  · have h2 : ¬ w.high < (tp : Int) - 1 := by omega
    simp [h, h2]
  · have h2 : w.high < (tp : Int) - 1 := by omega
    simp [h, h2]

/-- Claim C2: for every window `(low, high)`, if `canRetreat` (`low > 0`) is
false, retreat leaves the window (and the anchor) unchanged; otherwise
retreat returns `(low - 1, low)` and sets the Scroll Anchor Target to the
old low index. -/
theorem retreat_characterization (w : Window) (anchor : Option Int) :
    prevPageUpdate w anchor =
      if canLoadPrev w then (Window.mk (w.low - 1) w.low, some w.low) else (w, anchor) := by
  simp only [prevPageUpdate, canLoadPrev]
  by_cases h : w.low - 1 < (0 : Int)
  · have h2 : ¬ (0 : Int) < w.low := by omega
    simp [h, h2]
  · have h2 : (0 : Int) < w.low := by omega
    have h3 : w.low - 1 + 1 = w.low := by omega
    simp [h, h2, h3]

/-- A completed `loadNextPage` run preserves `high = low + 1`. -/
theorem loadNextPage_preserves_inv (tp : Nat) (s : ScrollState)
    (h : s.visiblePages.high = s.visiblePages.low + 1) :
    (loadNextPage tp s).visiblePages.high = (loadNextPage tp s).visiblePages.low + 1 := by
  simp only [loadNextPage, finishNextLoad, nextPageUpdate]
  split
  · exact h
  · split
    · exact h
    · rfl

/-- A completed `loadPrevPage` run preserves `high = low + 1`. -/
theorem loadPrevPage_preserves_inv (s : ScrollState)
    (h : s.visiblePages.high = s.visiblePages.low + 1) :
    (loadPrevPage s).visiblePages.high = (loadPrevPage s).visiblePages.low + 1 := by
  simp only [loadPrevPage, finishPrevLoad, prevPageUpdate]
  split
  · exact h
  · split
    · exact h
    · simp only []
      omega

/-- Claim C3: every state reachable from the initial state by any sequence of
completed advance and retreat operations has a visible window `(low, high)`
with `high = low + 1`. -/
theorem window_invariant_reachable {α : Type} (data : List α) (pageSize tp : Nat)
    (ops : List Op) :
    (runOps tp (initState data pageSize) ops).visiblePages.high =
      (runOps tp (initState data pageSize) ops).visiblePages.low + 1 := by
  have general : ∀ (os : List Op) (s : ScrollState),
      s.visiblePages.high = s.visiblePages.low + 1 →
      (runOps tp s os).visiblePages.high = (runOps tp s os).visiblePages.low + 1 := by
    intro os
    induction os with
    | nil => intro s hs; exact hs
    | cons o os ih =>
      intro s hs
      cases o with
      | next => exact ih _ (loadNextPage_preserves_inv tp s hs)
      | prev => exact ih _ (loadPrevPage_preserves_inv s hs)
  exact general ops (initState data pageSize) rfl

/-- Claim C4: for a window satisfying the data-model invariant
`high = low + 1`, if advance is legal and retreat is legal after the advance,
then advance followed by retreat returns the window to its original pair. -/
theorem advance_retreat_roundtrip (tp : Nat) (w : Window) (anchor : Option Int)
    (hinv : w.high = w.low + 1)
    (hadv : canLoadNext tp w = true)
    (hret : canLoadPrev (nextPageUpdate tp w) = true) :
    (prevPageUpdate (nextPageUpdate tp w) anchor).1 = w := by
  have hlt : w.high < (tp : Int) - 1 := by
    simpa [canLoadNext] using hadv
  have hup : nextPageUpdate tp w = Window.mk w.high (w.high + 1) := by
    rw [advance_characterization tp w, if_pos hadv]
  rw [hup] at hret ⊢
  have hpos : (0 : Int) < w.high := by
    simpa [canLoadPrev] using hret
  simp only [prevPageUpdate]
  have hneg : ¬ (w.high - 1 < (0 : Int)) := by omega
  simp only [hneg, if_neg, ite_false]
  cases w with
  | mk lo hi =>
    simp only at hinv ⊢
    subst hinv
    congr 1
    omega

/-- Witness for C4 at `totalPages = 3`, window `(0, 1)`: advance gives
`(1, 2)`, retreat gives back `(0, 1)`. -/
theorem advance_retreat_roundtrip_witness :
    (prevPageUpdate (nextPageUpdate 3 (Window.mk 0 1)) none).1 = Window.mk 0 1 :=
  advance_retreat_roundtrip 3 (Window.mk 0 1) none (by decide) (by decide) (by decide)

/-- Claim C5: while the Load State flag is true, any further transition
trigger (advance or retreat) has no effect and is not queued.  The first two
conjuncts: a call arriving on an in-flight state (isLoading = true) is
dropped, for both directions.  The last two: starting a load, dropping a
second trigger that arrives during the delay, and then finishing, equals the
single completed call, which changes the window by exactly one updater step. -/
theorem transitions_serialized (tp : Nat) (s : ScrollState) (h : s.isLoading = false) :
    loadNextPage tp { s with isLoading := true } = { s with isLoading := true } ∧
    loadPrevPage { s with isLoading := true } = { s with isLoading := true } ∧
    finishNextLoad tp (loadNextPage tp { s with isLoading := true }) = loadNextPage tp s ∧
    (loadNextPage tp s).visiblePages = nextPageUpdate tp s.visiblePages := by
  refine ⟨?_, ?_, ?_, ?_⟩
  · simp [loadNextPage]
  · simp [loadPrevPage]
  · simp [loadNextPage, h]
  · simp [loadNextPage, h, finishNextLoad]

/-- Witness for C5 at `totalPages = 3` from the idle state with window
`(0, 1)`. -/
theorem transitions_serialized_witness :
    loadNextPage 3 { visiblePages := ⟨0, 1⟩, isLoading := true, scrollToPage := none } =
      { visiblePages := ⟨0, 1⟩, isLoading := true, scrollToPage := none } ∧
    loadPrevPage { visiblePages := ⟨0, 1⟩, isLoading := true, scrollToPage := none } =
      { visiblePages := ⟨0, 1⟩, isLoading := true, scrollToPage := none } ∧
    finishNextLoad 3
        (loadNextPage 3 { visiblePages := ⟨0, 1⟩, isLoading := true, scrollToPage := none }) =
      loadNextPage 3 { visiblePages := ⟨0, 1⟩, isLoading := false, scrollToPage := none } ∧
    (loadNextPage 3 { visiblePages := ⟨0, 1⟩, isLoading := false, scrollToPage := none }).visiblePages =
      nextPageUpdate 3 ⟨0, 1⟩ :=
  transitions_serialized 3 { visiblePages := ⟨0, 1⟩, isLoading := false, scrollToPage := none } rfl

/-- Claim C6 (code bug): construction performs no `pageSize` validation.
With `pageSize = 0` the component still starts in the normal initial state,
and the slice computation produces zero-size pages (entries with empty item
slices) instead of an invalid-configuration error — the source has no error
path at all for `pageSize ≤ 0`. -/
theorem pageSizeZero_no_failfast :
    initState [0, 1, 2] 0 =
      { visiblePages := ⟨0, 1⟩, isLoading := false, scrollToPage := none } ∧
    paginatedChunks [0, 1, 2] 0 (initState [0, 1, 2] 0).visiblePages =
      [(0, []), (1, [])] := by
  exact ⟨rfl, rfl⟩

/-- The resolved slice bound never exceeds the list length. -/
theorem jsSliceBound_le (len : Nat) (i : Int) : jsSliceBound len i ≤ len := by
  unfold jsSliceBound
  split <;> omega

/-- An index at or past the length resolves to the length itself. -/
theorem jsSliceBound_eq_len (len : Nat) (i : Int) (h : (len : Int) ≤ i) :
    jsSliceBound len i = len := by
  unfold jsSliceBound
  have h0 : ¬ i < 0 := by omega
  rw [if_neg h0]
  omega

/-- A slice whose resolved stop does not exceed its resolved start is empty. -/
theorem jsSlice_eq_nil {α : Type} (xs : List α) (a b : Int)
    (h : jsSliceBound xs.length b ≤ jsSliceBound xs.length a) :
    jsSlice xs a b = [] := by
  unfold jsSlice
  apply List.drop_eq_nil_of_le
  calc (xs.take (jsSliceBound xs.length b)).length
      ≤ jsSliceBound xs.length b := by simp
    _ ≤ jsSliceBound xs.length a := h

/-- With a positive page size, the dataset fits in `totalPages` pages:
`len ≤ totalPages * pageSize`. -/
theorem length_le_totalPages_mul (len ps : Nat) (hps : 0 < ps) :
    len ≤ totalPages len ps * ps := by
  unfold totalPages
  have h1 := Nat.div_add_mod' (len + ps - 1) ps
  have h2 := Nat.mod_lt (len + ps - 1) hps
  -- from `ps * q + r = len + ps - 1` and `r < ps` follows `len ≤ q * ps`
  omega

/-- Counterexample to claim C7: with pageSize 20 and a 15-element dataset,
`totalPages = 1`, yet the slice computation still produces an entry whose
page index 1 is past `totalPages - 1 = 0`: the produced entry list is not
clipped to valid page indices. -/
theorem paginatedChunks_not_clipped :
    totalPages 15 20 = 1 ∧
    (paginatedChunks (List.range 15) 20
        (initState (List.range 15) 20).visiblePages).map Prod.fst = [0, 1] ∧
    ¬ ((1 : Int) ≤ (totalPages 15 20 : Int) - 1) := by
  refine ⟨rfl, rfl, by decide⟩

/-- Claim C7 amended: the slice computation produces, for each window index,
the pair `(index, dataset.slice(index*pageSize, index*pageSize+pageSize))`;
the entry list itself is not clipped (an entry is produced for each window
index regardless of validity), but every item slice is clipped to the
dataset, so an entry whose index is at or past `totalPages` carries an empty
slice — in particular for `totalPages = 0` every produced slice is empty and
for `totalPages = 1` the entry past `totalPages - 1` has an empty slice. -/
theorem paginatedChunks_amended {α : Type} (data : List α) (pageSize : Nat)
    (w : Window) (p : Int) (items : List α)
    (hmem : (p, items) ∈ paginatedChunks data pageSize w) :
    items = jsSlice data (p * (pageSize : Int)) (p * (pageSize : Int) + (pageSize : Int)) ∧
    ((totalPages data.length pageSize : Int) ≤ p → items = []) := by
  have hitems : items =
      jsSlice data (p * (pageSize : Int)) (p * (pageSize : Int) + (pageSize : Int)) := by
    simp only [paginatedChunks, List.map_cons, List.map_nil, List.mem_cons,
      List.not_mem_nil, or_false, Prod.mk.injEq] at hmem
    rcases hmem with ⟨hp, hi⟩ | ⟨hp, hi⟩ <;> subst hp <;> exact hi
  refine ⟨hitems, ?_⟩
  intro hpast
  subst hitems
  rcases Nat.eq_zero_or_pos pageSize with hz | hpos
  · subst hz
    apply jsSlice_eq_nil
    simp
  · have hlen : (data.length : Int) ≤ p * (pageSize : Int) := by
      have h1 : data.length ≤ totalPages data.length pageSize * pageSize :=
        length_le_totalPages_mul data.length pageSize hpos
      have h2 : ((totalPages data.length pageSize : Int)) * (pageSize : Int)
          ≤ p * (pageSize : Int) := by
        apply mul_le_mul_of_nonneg_right hpast
        exact_mod_cast Nat.zero_le pageSize
      calc (data.length : Int)
          ≤ ((totalPages data.length pageSize : Int)) * (pageSize : Int) := by
            exact_mod_cast h1
        _ ≤ p * (pageSize : Int) := h2
    apply jsSlice_eq_nil
    rw [jsSliceBound_eq_len data.length _ hlen]
    exact jsSliceBound_le data.length _

/-- Witness for the amended C7 at the degenerate scenario (pageSize 20,
dataset length 15, `totalPages = 1`): the produced entry for page 1 carries
the slice `data.slice(20, 40)`, and since `1 ≥ totalPages` that slice is
empty. -/
theorem paginatedChunks_amended_witness :
    ([] : List Nat) =
      jsSlice (List.range 15) ((1 : Int) * (20 : Nat)) ((1 : Int) * (20 : Nat) + (20 : Nat)) ∧
    ((totalPages (List.range 15).length 20 : Int) ≤ 1 → ([] : List Nat) = []) :=
  paginatedChunks_amended (List.range 15) 20 ⟨0, 1⟩ 1 [] (by decide)

/-- Counterexample to claim C8: with pageSize 20 and dataset length 15 only
one page exists (`totalPages = 1`), yet the initial visible window is
`(0, 1)`, not `(0, 0)`. -/
theorem initialWindow_counterexample :
    totalPages 15 20 = 1 ∧
    (initState (List.range 15) 20).visiblePages ≠ Window.mk 0 0 := by
  exact ⟨rfl, by decide⟩

/-- Claim C8 amended: for every dataset and page size the initial visible
window is `(0, 1)` — including when only one page, or none, exists; the
initial state does not depend on the dataset at all. -/
theorem initialWindow_amended {α : Type} (data : List α) (pageSize : Nat) :
    (initState data pageSize).visiblePages = Window.mk 0 1 := rfl

/-- Claim C9: when the anchored page's content becomes mounted and
measurable, the ref callback sets the scroll offset to the target's measured
offset relative to the container plus its rendered height, clears the Scroll
Anchor Target, and afterwards no page is anchored any more, so the
correction cannot reapply on subsequent re-renders. -/
theorem scroll_correction (wrapperOffsetTop : Int) (el : Measured) (s : ScrollState)
    (page : Int) (h : shouldScrollTo s page = true) :
    (applyScrollCorrection wrapperOffsetTop el s).1 =
      (el.offsetTop - wrapperOffsetTop) + el.clientHeight ∧
    (applyScrollCorrection wrapperOffsetTop el s).2.scrollToPage = none ∧
    (∀ q : Int, shouldScrollTo (applyScrollCorrection wrapperOffsetTop el s).2 q = false) := by
  refine ⟨rfl, rfl, ?_⟩
  intro q
  rfl

/-- Witness for C9: anchor at page 1, wrapper offset 5, element offset 30
and height 40 — the corrected scroll offset is 65 and the anchor clears. -/
theorem scroll_correction_witness :
    (applyScrollCorrection 5 (Measured.mk 30 40)
        { visiblePages := ⟨0, 1⟩, isLoading := false, scrollToPage := some 1 }).1 =
      ((30 : Int) - 5) + 40 ∧
    (applyScrollCorrection 5 (Measured.mk 30 40)
        { visiblePages := ⟨0, 1⟩, isLoading := false, scrollToPage := some 1 }).2.scrollToPage =
      none ∧
    (∀ q : Int, shouldScrollTo
        (applyScrollCorrection 5 (Measured.mk 30 40)
          { visiblePages := ⟨0, 1⟩, isLoading := false, scrollToPage := some 1 }).2 q = false) :=
  scroll_correction 5 (Measured.mk 30 40)
    { visiblePages := ⟨0, 1⟩, isLoading := false, scrollToPage := some 1 } 1 (by decide)

/-- Claim C10: when retreat is a no-op (`window.low = 0`), a completed
`loadPrevPage` run leaves both the window and the Scroll Anchor Target
unchanged — the updater only writes `scrollToPage` on a successful
transition — while the Load State flag is still cleared normally. -/
theorem retreat_noop_frame (s : ScrollState)
    (hload : s.isLoading = false) (hlow : s.visiblePages.low = 0) :
    (loadPrevPage s).visiblePages = s.visiblePages ∧
    (loadPrevPage s).scrollToPage = s.scrollToPage ∧
    (loadPrevPage s).isLoading = false := by
  have hneg : s.visiblePages.low - 1 < (0 : Int) := by omega
  simp [loadPrevPage, finishPrevLoad, prevPageUpdate, hload, hneg]

/-- Witness for C10 at the idle initial-like state with window `(0, 1)` and
no anchor set. -/
theorem retreat_noop_frame_witness :
    (loadPrevPage { visiblePages := ⟨0, 1⟩, isLoading := false, scrollToPage := none }).visiblePages =
      ({ visiblePages := ⟨0, 1⟩, isLoading := false, scrollToPage := none } : ScrollState).visiblePages ∧
    (loadPrevPage { visiblePages := ⟨0, 1⟩, isLoading := false, scrollToPage := none }).scrollToPage =
      ({ visiblePages := ⟨0, 1⟩, isLoading := false, scrollToPage := none } : ScrollState).scrollToPage ∧
    (loadPrevPage { visiblePages := ⟨0, 1⟩, isLoading := false, scrollToPage := none }).isLoading =
      false :=
  retreat_noop_frame { visiblePages := ⟨0, 1⟩, isLoading := false, scrollToPage := none } rfl rfl

end BidiScroll
